import Mathlib

/-!
Shallow embedding of `src/examples/CFD/cylinder2d.py` (XLB cylinder-flow
example).  The script computes in IEEE double precision; we model its
arithmetic exactly over the rationals (and over the reals where a square
root occurs).  For every constant expression the claims touch, the exact
value and the IEEE-double value coincide; in particular `int(4.1 * 80)`
evaluates to `328` both in IEEE double and exactly.

The library internals imported by the script (`src/boundary_conditions.py`,
`src/models.py`, `src/lattice.py`, `src/utils.py`) are not part of the
sources; where a claim depends on one of them (`momentum_exchange_force`,
`boundingBoxIndices`) the missing piece is modelled from the specification
text, and is marked as such in its doc comment.
-/

namespace Cylinder2d

/-- Source line 105: `diam_list = [80]`. -/
def diam_list : List Nat := [80]

/-- Source line 110: `scale_factor = 80 / diam`. -/
def scale_factor (diam : Nat) : ℚ := 80 / (diam : ℚ)

/-- Source line 111: `prescribed_vel = 0.003 * scale_factor`. -/
def prescribed_vel (diam : Nat) : ℚ := 3 / 1000 * scale_factor diam

/-- Source line 114: `nx = int(22*diam)`. -/
def nx (diam : Nat) : Nat := (⌊(22 : ℚ) * diam⌋).toNat

/-- Source line 115: `ny = int(4.1*diam)`. -/
def ny (diam : Nat) : Nat := (⌊(41 / 10 : ℚ) * diam⌋).toNat

/-- Source line 117: `Re = 100.0`. -/
def Re : ℚ := 100

/-- Source line 118: `visc = prescribed_vel * diam / Re`. -/
def visc (diam : Nat) : ℚ := prescribed_vel diam * diam / Re

/-- Source line 119: `omega = 1.0 / (3. * visc + 0.5)`. -/
def omega (diam : Nat) : ℚ := 1 / (3 * visc diam + 1 / 2)

/-- Source line 135: `t_max = int(1000000 / scale_factor)`. -/
def t_max (diam : Nat) : Nat := (⌊(1000000 : ℚ) / scale_factor diam⌋).toNat

/-- Source line 130: `io_rate = int(500 / scale_factor)`. -/
def io_rate (diam : Nat) : Nat := (⌊(500 : ℚ) / scale_factor diam⌋).toNat

/-- Source line 131: `print_info_rate = int(10000 / scale_factor)`. -/
def print_info_rate (diam : Nat) : Nat := (⌊(10000 : ℚ) / scale_factor diam⌋).toNat

/-- The keyword arguments built at source lines 123-133 and handed to the
`Cylinder` constructor (lattice and precision objects omitted: no claim
touches them). -/
structure SimKwargs where
  omega : ℚ
  nx : Nat
  ny : Nat
  nz : Nat
  io_rate : Nat
  print_info_rate : Nat
  return_fpost : Bool
deriving DecidableEq

/-- Source lines 123-133: the concrete `kwargs` dictionary, including
`return_fpost = True` with the comment that post-collision populations are
needed for the lift and drag computation. -/
def simKwargs (diam : Nat) : SimKwargs :=
  ⟨omega diam, nx diam, ny diam, 0, io_rate diam, print_info_rate diam, true⟩

/-- Source line 43: `coord = np.array([(i, j) for i in range(nx) for j in range(ny)])`. -/
def coord (n m : Nat) : List (Nat × Nat) :=
  (List.range n).flatMap fun i => (List.range m).map fun j => (i, j)

/-- Source line 45: `cx = 2.*diam` (x coordinate of the cylinder center). -/
def cx (diam : Nat) : ℚ := 2 * diam

/-- Source line 45: `cy = 2.*diam` (y coordinate of the cylinder center). -/
def cy (diam : Nat) : ℚ := 2 * diam

/-- Source line 46: the boolean mask `(xx - cx)**2 + (yy - cy)**2 <= (diam/2.)**2`. -/
def inCylinder (diam : Nat) (p : Nat × Nat) : Bool :=
  decide (((p.1 : ℚ) - cx diam) ^ 2 + ((p.2 : ℚ) - cy diam) ^ 2 ≤ ((diam : ℚ) / 2) ^ 2)

/-- Source line 47: `cylinder = coord[cylinder]`, the coordinates passing the mask. -/
def cylinderIndices (n m diam : Nat) : List (Nat × Nat) :=
  (coord n m).filter (inCylinder diam)

/-- Source line 48: `implicit_distance = (xx - cx)**2 + (yy - cy)**2 - (diam/2.)**2`,
viewed as a function of the node coordinates. -/
def implicit_distance (diam : Nat) (i j : Nat) : ℚ :=
  ((i : ℚ) - cx diam) ^ 2 + ((j : ℚ) - cy diam) ^ 2 - ((diam : ℚ) / 2) ^ 2

/-- The `self.boundingBoxIndices` planes consumed at source lines 52, 57 and 67.
They are produced by the library base class (not among the sources), so the
four index lists are kept abstract: every claim about them is parametric. -/
structure BoundingBoxIndices where
  left : List (Nat × Nat)
  right : List (Nat × Nat)
  top : List (Nat × Nat)
  bottom : List (Nat × Nat)

/-- The `.min()` of a numpy array modelled on a list (the source applies it to
the nonempty inlet coordinate list). -/
def npMin : List Nat → Nat
  | [] => 0
  | x :: xs => xs.foldl Nat.min x

/-- The `.max()` of a numpy array modelled on a list. -/
def npMax : List Nat → Nat
  | [] => 0
  | x :: xs => xs.foldl Nat.max x

/-- Source line 60: `yy_inlet = yy.reshape(nx, ny)[tuple(inlet.T)]`, the j
coordinates of the inlet nodes. -/
def yy_inlet (bb : BoundingBoxIndices) : List Nat := bb.left.map Prod.snd

/-- Source line 100: the helper
`poiseuille_profile = lambda x,x0,d,umax: np.maximum(0., 4.*umax/(d**2)*((x-x0)*d - (x-x0)**2))`. -/
def poiseuille_profile (x x0 d umax : ℚ) : ℚ :=
  max 0 (4 * umax / d ^ 2 * ((x - x0) * d - (x - x0) ^ 2))

/-- Source lines 59-63: `vel_inlet` with x component the Poiseuille profile at
`umax = 3.0/2.0 * prescribed_vel` and y component left at zero. -/
def vel_inlet (diam : Nat) (bb : BoundingBoxIndices) : List (ℚ × ℚ) :=
  (yy_inlet bb).map fun y =>
    (poiseuille_profile y (npMin (yy_inlet bb))
      ((npMax (yy_inlet bb) : ℚ) - (npMin (yy_inlet bb) : ℚ))
      (3 / 2 * prescribed_vel diam), 0)

/-- Source line 68: `vel_wall = np.zeros(wall.shape)`, one zero velocity row per
wall node. -/
def vel_wall (bb : BoundingBoxIndices) : List (ℚ × ℚ) :=
  (bb.top ++ bb.bottom).map fun _ => (0, 0)

/-- The boundary-condition values appended to `self.BCs`, with their
construction arguments that the claims mention. -/
inductive BC where
  | interpolatedBounceBackBouzidi (indices : List (Nat × Nat)) (dist : Nat → Nat → ℚ)
  | extrapolationOutflow (indices : List (Nat × Nat))
  | regularized (indices : List (Nat × Nat)) (bc_type : String) (vel : List (ℚ × ℚ))

/-- Source lines 41-69: `Cylinder.set_boundary_conditions` appends, in order,
the Bouzidi cylinder condition, the outflow condition on the right plane, the
Regularized velocity inlet on the left plane, and the Regularized zero-velocity
wall condition on the top and bottom planes. -/
def set_boundary_conditions (n m diam : Nat) (bb : BoundingBoxIndices) : List BC :=
  [BC.interpolatedBounceBackBouzidi (cylinderIndices n m diam) (implicit_distance diam),
   BC.extrapolationOutflow bb.right,
   BC.regularized bb.left "velocity" (vel_inlet diam bb),
   BC.regularized (bb.top ++ bb.bottom) "velocity" (vel_wall bb)]

/-- Source line 83: `cylinder = self.BCs[0]`, the boundary object queried for
forces in `output_data`. -/
def trackedBoundary (bcs : List BC) : Option BC := bcs.get? 0

/-- One governed boundary link of the cylinder condition: the post-collision
(pre-streaming) population, the post-streaming population, and the lattice
velocity vector of the link. -/
structure BoundaryLink where
  fpost_collision : ℚ
  fpost_streaming : ℚ
  c : ℤ × ℤ

/-- Modelled from the spec: `momentum_exchange_force` of
`InterpolatedBounceBackBouzidi` is implemented in `src/boundary_conditions.py`,
which is not among the sources.  The spec states that it "sums, over all
governed boundary links, the difference between pre-streaming and
post-streaming populations weighted by the link velocity vector"; we model the
per-link contributions, which the script then sums over axis 0. -/
def momentum_exchange_force (links : List BoundaryLink) : List (ℚ × ℚ) :=
  links.map fun l =>
    ((l.fpost_collision - l.fpost_streaming) * (l.c.1 : ℚ),
     (l.fpost_collision - l.fpost_streaming) * (l.c.2 : ℚ))

/-- Source line 85: `np.sum(np.array(boundary_force), axis=0)` on a list of
2-vectors. -/
def sumAxis0 (v : List (ℚ × ℚ)) : ℚ × ℚ :=
  v.foldl (fun a b => (a.1 + b.1, a.2 + b.2)) (0, 0)

/-- Source lines 84-85: the summed momentum-exchange force vector. -/
def boundary_force (links : List BoundaryLink) : ℚ × ℚ :=
  sumAxis0 (momentum_exchange_force links)

/-- Source line 86: `drag = boundary_force[0]`. -/
def drag (links : List BoundaryLink) : ℚ := (boundary_force links).1

/-- Source line 87: `lift = boundary_force[1]`. -/
def lift (links : List BoundaryLink) : ℚ := (boundary_force links).2

/-- Source line 88: `cd = 2. * drag / (prescribed_vel ** 2 * diam)`. -/
def cd (diam : Nat) (links : List BoundaryLink) : ℚ :=
  2 * drag links / (prescribed_vel diam ^ 2 * diam)

/-- Source line 89: `cl = 2. * lift / (prescribed_vel ** 2 * diam)`. -/
def cl (diam : Nat) (links : List BoundaryLink) : ℚ :=
  2 * lift links / (prescribed_vel diam ^ 2 * diam)

/-- The running maxima kept on the simulation object by `output_data`. -/
structure DiagState where
  CL_max : ℚ
  CD_max : ℚ
deriving DecidableEq

/-- Source lines 78-95: the state update of one `output_data` call.  At
timestep 0 both maxima are initialized to 0; when `timestep > 0.8 * t_max` the
instantaneous coefficients are computed from the momentum-exchange force of
`BCs[0]` and folded into the maxima; otherwise the state is untouched. -/
def output_data (tmax diam : Nat) (s : DiagState) (timestep : Nat)
    (links : List BoundaryLink) : DiagState :=
  let s := if timestep = 0 then ⟨0, 0⟩ else s
  if (8 / 10 : ℚ) * tmax < timestep then
    ⟨max s.CL_max (cl diam links), max s.CD_max (cd diam links)⟩
  else s

/-- A run of `output_data` calls over a trace of sampled steps, each carrying
its timestep and the boundary-link data of the cylinder condition. -/
def runDiagnostics (tmax diam : Nat) (s : DiagState)
    (trace : List (Nat × List BoundaryLink)) : DiagState :=
  trace.foldl (fun st x => output_data tmax diam st x.1 x.2) s

/-- Source lines 73-76: `[..., 1:-1, :]` drops the first and the last entry
along the second (y) axis of a velocity field stored as rows of component
pairs. -/
def sliceInner (u : List (List (ℝ × ℝ))) : List (List (ℝ × ℝ)) :=
  u.map fun row => (row.drop 1).dropLast

/-- Source lines 91-92: `np.linalg.norm(u, axis=2)`, the euclidean magnitude of
one velocity vector. -/
noncomputable def npNorm (v : ℝ × ℝ) : ℝ := Real.sqrt (v.1 ^ 2 + v.2 ^ 2)

/-- Source lines 91-93: the convergence error actually computed,
`err = np.sum(np.abs(u_old - u_new))` where `u_old` and `u_new` are the
per-node euclidean magnitudes of the sliced previous and current fields. -/
noncomputable def err_code (u u_prev : List (List (ℝ × ℝ))) : ℝ :=
  let u_new := (sliceInner u).map (List.map npNorm)
  let u_old := (sliceInner u_prev).map (List.map npNorm)
  ((u_old.zip u_new).map fun r => ((r.1.zip r.2).map fun a => |a.1 - a.2|).sum).sum

/-- The quantity the claim describes: the L1 norm of the velocity-field change,
i.e. the sum over all nodes and components of the absolute difference between
the current and the previously sampled velocity fields.  Stated from the claim
wording, for comparison with `err_code`. -/
noncomputable def err_claimedL1 (u u_prev : List (List (ℝ × ℝ))) : ℝ :=
  ((u.zip u_prev).map fun r =>
    ((r.1.zip r.2).map fun a => |a.1.1 - a.2.1| + |a.1.2 - a.2.2|).sum).sum

/-- The corrected description of the computed error: the sum, over the nodes of
the sliced fields, of the absolute difference of the euclidean speed
magnitudes of the previous and current velocities. -/
noncomputable def err_speedL1 (u u_prev : List (List (ℝ × ℝ))) : ℝ :=
  (((sliceInner u_prev).zip (sliceInner u)).map fun r =>
    ((r.1.zip r.2).map fun a => |npNorm a.1 - npNorm a.2|).sum).sum

/-! Helper lemmas shared between the claim theorems. -/

theorem foldl_pair_sum (v : List (ℚ × ℚ)) (a : ℚ × ℚ) :
    v.foldl (fun a b => (a.1 + b.1, a.2 + b.2)) a
      = (a.1 + (v.map Prod.fst).sum, a.2 + (v.map Prod.snd).sum) := by
  induction v generalizing a with
  | nil => simp
  | cons p v ih =>
      simp only [List.foldl_cons, List.map_cons, List.sum_cons, ih]
      exact Prod.ext (by ring) (by ring)

theorem sumAxis0_eq (v : List (ℚ × ℚ)) :
    sumAxis0 v = ((v.map Prod.fst).sum, (v.map Prod.snd).sum) := by
  simp [sumAxis0, foldl_pair_sum]

theorem mem_coord (n m : Nat) (i j : Nat) :
    (i, j) ∈ coord n m ↔ i < n ∧ j < m := by
  simp [coord, List.mem_flatMap, List.mem_map, List.mem_range]

theorem output_data_zero_step (tmax diam : Nat) (s : DiagState) (links : List BoundaryLink) :
    output_data tmax diam s 0 links = ⟨0, 0⟩ := by
  have h0 : ¬ ((8 / 10 : ℚ) * tmax < 0) :=
    not_lt.mpr (mul_nonneg (by norm_num) (Nat.cast_nonneg tmax))
  simp [output_data, h0]

theorem output_data_nonneg (tmax diam : Nat) (s : DiagState) (ts : Nat)
    (links : List BoundaryLink) (h1 : 0 ≤ s.CL_max) (h2 : 0 ≤ s.CD_max) :
    0 ≤ (output_data tmax diam s ts links).CL_max
      ∧ 0 ≤ (output_data tmax diam s ts links).CD_max := by
  by_cases hts : ts = 0
  · subst hts
    rw [output_data_zero_step]
    exact ⟨le_refl 0, le_refl 0⟩
  · by_cases hc : (8 / 10 : ℚ) * tmax < ts <;>
      simp [output_data, hts, hc, le_max_iff, h1, h2]

theorem runDiagnostics_cons (tmax diam : Nat) (s : DiagState)
    (x : Nat × List BoundaryLink) (xs : List (Nat × List BoundaryLink)) :
    runDiagnostics tmax diam s (x :: xs)
      = runDiagnostics tmax diam (output_data tmax diam s x.1 x.2) xs := rfl

theorem runDiagnostics_nonneg (tmax diam : Nat) (s : DiagState)
    (trace : List (Nat × List BoundaryLink)) (h1 : 0 ≤ s.CL_max) (h2 : 0 ≤ s.CD_max) :
    0 ≤ (runDiagnostics tmax diam s trace).CL_max
      ∧ 0 ≤ (runDiagnostics tmax diam s trace).CD_max := by
  induction trace generalizing s with
  | nil => exact ⟨h1, h2⟩
  | cons x xs ih =>
      rw [runDiagnostics_cons]
      obtain ⟨g1, g2⟩ := output_data_nonneg tmax diam s x.1 x.2 h1 h2
      exact ih _ g1 g2

theorem runDiagnostics_zero_of_neg (tmax diam : Nat) (s : DiagState)
    (trace : List (Nat × List BoundaryLink))
    (hneg : ∀ x ∈ trace, cl diam x.2 < 0) (hs : s.CL_max = 0) :
    (runDiagnostics tmax diam s trace).CL_max = 0 := by
  induction trace generalizing s with
  | nil => exact hs
  | cons x xs ih =>
      rw [runDiagnostics_cons]
      have hx : cl diam x.2 < 0 := hneg x (List.mem_cons_self x xs)
      have hxs : ∀ y ∈ xs, cl diam y.2 < 0 := fun y hy => hneg y (List.mem_cons_of_mem x hy)
      refine ih _ hxs ?_
      by_cases hts : x.1 = 0
      · rw [hts, output_data_zero_step]
      · by_cases hc : (8 / 10 : ℚ) * tmax < (x.1 : ℚ) <;>
          simp [output_data, hts, hc, hs, max_eq_left (le_of_lt hx)]

theorem runDiagnostics_running_max (tmax diam : Nat) (s : DiagState)
    (trace : List (Nat × List BoundaryLink)) (h : ∀ x ∈ trace, x.1 ≠ 0) :
    runDiagnostics tmax diam s trace
      = ⟨((trace.filter fun x => decide ((8 / 10 : ℚ) * tmax < x.1)).map
            fun x => cl diam x.2).foldl max s.CL_max,
         ((trace.filter fun x => decide ((8 / 10 : ℚ) * tmax < x.1)).map
            fun x => cd diam x.2).foldl max s.CD_max⟩ := by
  induction trace generalizing s with
  | nil => rfl
  | cons x xs ih =>
      have hx : x.1 ≠ 0 := h x (List.mem_cons_self x xs)
      have hxs : ∀ y ∈ xs, y.1 ≠ 0 := fun y hy => h y (List.mem_cons_of_mem x hy)
      rw [runDiagnostics_cons]
      by_cases hc : (8 / 10 : ℚ) * tmax < (x.1 : ℚ)
      · have hstep : output_data tmax diam s x.1 x.2
            = ⟨max s.CL_max (cl diam x.2), max s.CD_max (cd diam x.2)⟩ := by
          simp [output_data, hx, hc]
        rw [hstep, ih _ hxs]
        simp [List.filter_cons, hc]
      · have hstep : output_data tmax diam s x.1 x.2 = s := by
          simp [output_data, hx, hc]
        rw [hstep, ih _ hxs]
        simp [List.filter_cons, hc]

/-! Theorems for the claims. -/

/-- Claim C1, counterexample.  On the one-interior-node fields with current
velocity (1, 0) and previous velocity (0, 1), the error the code computes is
0 (the two speeds agree), while the sum over all nodes and components of the
absolute velocity change is 2, so the error is not the L1 norm of the
velocity-field change. -/
theorem C1_counterexample :
    err_code [[((0:ℝ), 0), (1, 0), (0, 0)]] [[((0:ℝ), 0), (0, 1), (0, 0)]] = 0
      ∧ err_claimedL1 [[((0:ℝ), 0), (1, 0), (0, 0)]] [[((0:ℝ), 0), (0, 1), (0, 0)]] = 2
      ∧ err_code [[((0:ℝ), 0), (1, 0), (0, 0)]] [[((0:ℝ), 0), (0, 1), (0, 0)]]
          ≠ err_claimedL1 [[((0:ℝ), 0), (1, 0), (0, 0)]] [[((0:ℝ), 0), (0, 1), (0, 0)]] := by
  have h1 : err_code [[((0:ℝ), 0), (1, 0), (0, 0)]] [[((0:ℝ), 0), (0, 1), (0, 0)]] = 0 := by
    norm_num [err_code, sliceInner, npNorm, Real.sqrt_one]
  have h2 : err_claimedL1 [[((0:ℝ), 0), (1, 0), (0, 0)]] [[((0:ℝ), 0), (0, 1), (0, 0)]] = 2 := by
    norm_num [err_claimedL1]
  exact ⟨h1, h2, by rw [h1, h2]; norm_num⟩

/-- Claim C1, amended: the convergence error handed to diagnostics is the L1
norm of the change of the speed field, that is, the sum over the nodes of the
interior-sliced fields of the absolute difference between the euclidean
magnitudes of the previously sampled and current velocities. -/
theorem C1_err_is_speed_change (u u_prev : List (List (ℝ × ℝ))) :
    err_code u u_prev = err_speedL1 u u_prev := by
  simp only [err_code, err_speedL1, List.zip_map, List.map_map]
  congr 1
  apply List.map_congr_left
  intro r _
  simp only [Function.comp_apply, Prod.map_fst, Prod.map_snd, List.zip_map, List.map_map]
  refine congrArg List.sum (List.map_congr_left fun a _ => ?_)
  rfl

/-- Claim C2: the momentum-exchange force on the cylinder is the sum over all
governed boundary links of the difference between the post-collision
(pre-streaming) and post-streaming populations weighted by the link velocity
vector; drag is its x component and lift its y component, and the constructor
arguments set `return_fpost` to true to retain the post-collision
populations. -/
theorem C2_momentum_exchange (links : List BoundaryLink) (d : Nat) :
    boundary_force links
        = ((links.map fun l => (l.fpost_collision - l.fpost_streaming) * (l.c.1 : ℚ)).sum,
           (links.map fun l => (l.fpost_collision - l.fpost_streaming) * (l.c.2 : ℚ)).sum)
      ∧ drag links = (boundary_force links).1
      ∧ lift links = (boundary_force links).2
      ∧ (simKwargs d).return_fpost = true := by
  refine ⟨?_, rfl, rfl, rfl⟩
  simp [boundary_force, sumAxis0_eq, momentum_exchange_force, List.map_map, Function.comp_def]

/-- Claim C3: coefficients are folded into the running maxima exactly at the
sampled steps with `timestep > 0.8 * t_max`; the retained values are the
running maxima of the sampled instantaneous coefficients (never averages),
and a call outside the final 20 percent of the run leaves the state
unchanged. -/
theorem C3_running_maximum (tmax diam : Nat) (s : DiagState)
    (trace : List (Nat × List BoundaryLink)) (h : ∀ x ∈ trace, x.1 ≠ 0) :
    runDiagnostics tmax diam s trace
        = ⟨((trace.filter fun x => decide ((8 / 10 : ℚ) * tmax < x.1)).map
              fun x => cl diam x.2).foldl max s.CL_max,
           ((trace.filter fun x => decide ((8 / 10 : ℚ) * tmax < x.1)).map
              fun x => cd diam x.2).foldl max s.CD_max⟩
      ∧ ∀ (ts : Nat) (links : List BoundaryLink), ts ≠ 0 →
          ¬ ((8 / 10 : ℚ) * tmax < (ts : ℚ)) →
          output_data tmax diam s ts links = s :=
  ⟨runDiagnostics_running_max tmax diam s trace h,
   fun ts links h1 h2 => by simp [output_data, h1, h2]⟩

/-- Witness for C3 at a concrete trace: one sample at timestep 9 of a run of
length 10 with no governed links, so both coefficients are 0 and the maxima
stay at their prior values. -/
theorem C3_witness :
    (∀ x ∈ ([(9, ([] : List BoundaryLink))] : List (Nat × List BoundaryLink)), x.1 ≠ 0)
      ∧ runDiagnostics 10 80 ⟨1, 2⟩ [(9, ([] : List BoundaryLink))] = ⟨1, 2⟩ := by
  refine ⟨by decide, ?_⟩
  have h := (C3_running_maximum 10 80 ⟨1, 2⟩ [(9, [])] (by decide)).1
  rw [h]
  have hp : ((8 / 10 : ℚ) * ((10 : Nat) : ℚ) < ((9 : Nat) : ℚ)) := by norm_num
  rw [List.filter_cons_of_pos (by simpa using hp)]
  norm_num [cl, cd, lift, drag, boundary_force, sumAxis0, momentum_exchange_force]

/-- Claim C4, counterexample: for the documented run diam = 80, so the channel
is 1760 nodes long and 328 nodes wide, not 220 by 41 as claimed (those figures
belong to diam = 10). -/
theorem C4_counterexample :
    ny 80 = 328 ∧ nx 80 = 1760 ∧ ¬ (ny 80 = 41 ∧ nx 80 = 220) := by
  have h1 : ny 80 = 328 := by norm_num [ny]; rfl
  have h2 : nx 80 = 1760 := by norm_num [nx]; rfl
  exact ⟨h1, h2, fun hcl => by simp [h1] at hcl⟩

/-- Claim C4, amended: in the documented scenario (diam = 80) the channel is
1760 nodes long (nx = int(22·80)) and 328 nodes wide (ny = int(4.1·80)), with
the 80-node cylinder centered at (160, 160); ω is computed for Re = 100 from
ν = prescribed_vel·diam/Re, giving ω = 625/317, and the run length is
t_max = 1000000 steps. -/
theorem C4_scenario :
    nx 80 = 1760 ∧ ny 80 = 328 ∧ cx 80 = 160 ∧ cy 80 = 160 ∧ Re = 100
      ∧ visc 80 = prescribed_vel 80 * 80 / 100
      ∧ omega 80 = 625 / 317 ∧ t_max 80 = 1000000 := by
  refine ⟨by norm_num [nx]; rfl, by norm_num [ny]; rfl, by norm_num [cx], by norm_num [cy],
    rfl, ?_, ?_, by norm_num [t_max, scale_factor]; rfl⟩
  · norm_num [visc, Re]
  · norm_num [omega, visc, prescribed_vel, scale_factor, Re]

/-- Claim C5: the relaxation parameter handed to the solver satisfies
ω = 1/(3ν + 0.5) with ν = prescribed_vel·diam/Re and Re = 100, so for every
diameter in the sweep, omega = 1/(3·prescribed_vel·diam/100 + 0.5). -/
theorem C5_omega_formula (d : Nat) (_hd : d ∈ diam_list) :
    (simKwargs d).omega = 1 / (3 * prescribed_vel d * d / 100 + 1 / 2)
      ∧ omega d = 1 / (3 * visc d + 1 / 2)
      ∧ visc d = prescribed_vel d * d / Re := by
  refine ⟨?_, rfl, rfl⟩
  show omega d = _
  rw [omega, visc, Re]
  ring_nf

/-- Witness for C5 at the only diameter of the sweep. -/
theorem C5_witness :
    (80 ∈ diam_list)
      ∧ ((simKwargs 80).omega = 1 / (3 * prescribed_vel 80 * ((80 : Nat) : ℚ) / 100 + 1 / 2)
          ∧ omega 80 = 1 / (3 * visc 80 + 1 / 2)
          ∧ visc 80 = prescribed_vel 80 * ((80 : Nat) : ℚ) / Re) :=
  ⟨by decide, C5_omega_formula 80 (by decide)⟩

/-- Claim C6: the Poiseuille profile is non-negative for every input, vanishes
at y0 and y0 + d, is symmetric about the midline y0 + d/2 and (for a genuine
channel, d nonzero and umax non-negative) attains its maximum umax there; the
example evaluates it on the inlet with umax = 1.5·prescribed_vel for the x
component and leaves the y component identically zero. -/
theorem C6_poiseuille (y0 d umax : ℚ) :
    (∀ y, 0 ≤ poiseuille_profile y y0 d umax)
      ∧ poiseuille_profile y0 y0 d umax = 0
      ∧ poiseuille_profile (y0 + d) y0 d umax = 0
      ∧ (∀ t, poiseuille_profile (y0 + d / 2 + t) y0 d umax
            = poiseuille_profile (y0 + d / 2 - t) y0 d umax)
      ∧ (d ≠ 0 → 0 ≤ umax →
          poiseuille_profile (y0 + d / 2) y0 d umax = umax
            ∧ ∀ y, poiseuille_profile y y0 d umax ≤ umax)
      ∧ (∀ diam bb, vel_inlet diam bb
            = (yy_inlet bb).map fun y =>
                (poiseuille_profile y (npMin (yy_inlet bb))
                  ((npMax (yy_inlet bb) : ℚ) - (npMin (yy_inlet bb) : ℚ))
                  (3 / 2 * prescribed_vel diam), 0))
      ∧ (∀ diam bb, ∀ v ∈ vel_inlet diam bb, v.2 = 0) := by
  refine ⟨fun y => le_max_left 0 _, ?_, ?_, ?_, ?_, fun diam bb => rfl, ?_⟩
  · unfold poiseuille_profile
    have h : (y0 - y0) * d - (y0 - y0) ^ 2 = 0 := by ring
    rw [h, mul_zero]
    exact max_self 0
  · unfold poiseuille_profile
    have h : (y0 + d - y0) * d - (y0 + d - y0) ^ 2 = 0 := by ring
    rw [h, mul_zero]
    exact max_self 0
  · intro t
    unfold poiseuille_profile
    congr 1
    ring
  · intro hd hu
    have hd2 : (0:ℚ) < d ^ 2 := by positivity
    constructor
    · unfold poiseuille_profile
      have h : 4 * umax / d ^ 2 * ((y0 + d / 2 - y0) * d - (y0 + d / 2 - y0) ^ 2)
          = umax := by
        field_simp
        ring
      rw [h, max_eq_right hu]
    · intro y
      unfold poiseuille_profile
      refine max_le hu ?_
      rw [div_mul_eq_mul_div, div_le_iff₀ hd2]
      nlinarith [mul_nonneg hu (sq_nonneg (2 * (y - y0) - d))]
  · intro diam bb v hv
    rcases List.mem_map.mp hv with ⟨y, _, h⟩
    have h2 := congrArg Prod.snd h
    simpa using h2.symm

/-- Witness for C6: the concrete parabola with y0 = 0, d = 2, umax = 1 attains
the value 1 at the midline. -/
theorem C6_witness :
    ((2:ℚ) ≠ 0) ∧ ((0:ℚ) ≤ 1) ∧ poiseuille_profile (0 + 2 / 2) 0 2 1 = 1 :=
  ⟨by norm_num, by norm_num,
   ((C6_poiseuille 0 2 1).2.2.2.2.1 (by norm_num) (by norm_num)).1⟩

/-- Claim C7: `set_boundary_conditions` appends the Bouzidi condition of the
cylinder before all other boundary conditions (it is the head of the
four-element list), and the force diagnostics of `output_data` read exactly
`BCs[0]`, which is that condition. -/
theorem C7_first_boundary (n m diam : Nat) (bb : BoundingBoxIndices) :
    (set_boundary_conditions n m diam bb).head?
        = some (BC.interpolatedBounceBackBouzidi (cylinderIndices n m diam)
            (implicit_distance diam))
      ∧ trackedBoundary (set_boundary_conditions n m diam bb)
        = some (BC.interpolatedBounceBackBouzidi (cylinderIndices n m diam)
            (implicit_distance diam))
      ∧ (set_boundary_conditions n m diam bb).length = 4 :=
  ⟨rfl, rfl, rfl⟩

/-- Claim C8: the top and bottom walls are governed by the single Regularized
condition appended last, of type velocity, whose prescribed vector is zero at
every governed node, and whose governed index list is the concatenation (the
union) of the top and bottom bounding-box index sets. -/
theorem C8_wall_boundary (n m diam : Nat) (bb : BoundingBoxIndices) :
    (set_boundary_conditions n m diam bb).get? 3
        = some (BC.regularized (bb.top ++ bb.bottom) "velocity" (vel_wall bb))
      ∧ (∀ v ∈ vel_wall bb, v = ((0:ℚ), (0:ℚ)))
      ∧ (vel_wall bb).length = (bb.top ++ bb.bottom).length
      ∧ (∀ p : Nat × Nat, p ∈ bb.top ++ bb.bottom ↔ p ∈ bb.top ∨ p ∈ bb.bottom) := by
  refine ⟨rfl, ?_, by simp [vel_wall], fun p => List.mem_append⟩
  intro v hv
  rcases List.mem_map.mp hv with ⟨p, _, h⟩
  exact h.symm

/-- Claim C9: a grid node (i, j) is in the governed index set of the cylinder
condition exactly when (i − 2·diam)² + (j − 2·diam)² ≤ (diam/2)², which holds
exactly when the implicit distance field is non-positive there. -/
theorem C9_cylinder_membership (n m diam i j : Nat) (hi : i < n) (hj : j < m) :
    ((i, j) ∈ cylinderIndices n m diam
        ↔ ((i:ℚ) - 2 * diam) ^ 2 + ((j:ℚ) - 2 * diam) ^ 2 ≤ ((diam:ℚ) / 2) ^ 2)
      ∧ ((i, j) ∈ cylinderIndices n m diam ↔ implicit_distance diam i j ≤ 0) := by
  have hmem : (i, j) ∈ cylinderIndices n m diam
      ↔ ((i:ℚ) - 2 * diam) ^ 2 + ((j:ℚ) - 2 * diam) ^ 2 ≤ ((diam:ℚ) / 2) ^ 2 := by
    rw [cylinderIndices, List.mem_filter]
    simp [inCylinder, cx, cy, mem_coord, hi, hj]
  exact ⟨hmem, hmem.trans (by simp [implicit_distance, cx, cy, sub_nonpos])⟩

/-- Witness for C9 at the node (4, 4) of a 5 by 5 grid with diam = 2 (the
node is the cylinder center, so it is governed and the distance field is
non-positive there). -/
theorem C9_witness :
    (((4:Nat), (4:Nat)) ∈ cylinderIndices 5 5 2
        ↔ (((4:Nat):ℚ) - 2 * ((2:Nat):ℚ)) ^ 2 + (((4:Nat):ℚ) - 2 * ((2:Nat):ℚ)) ^ 2
            ≤ (((2:Nat):ℚ) / 2) ^ 2)
      ∧ (((4:Nat), (4:Nat)) ∈ cylinderIndices 5 5 2 ↔ implicit_distance 2 4 4 ≤ 0) :=
  C9_cylinder_membership 5 5 2 4 4 (by decide) (by decide)

/-- Claim C10: starting from the timestep-0 initialization, the running maxima
stay non-negative along any trace of sampled steps, and if every sampled lift
coefficient is negative then the recorded maximum lift is 0. -/
theorem C10_nonnegative_maxima (tmax diam : Nat) (s : DiagState)
    (links0 : List BoundaryLink) (rest : List (Nat × List BoundaryLink)) :
    0 ≤ (runDiagnostics tmax diam s ((0, links0) :: rest)).CL_max
      ∧ 0 ≤ (runDiagnostics tmax diam s ((0, links0) :: rest)).CD_max
      ∧ ((∀ x ∈ (0, links0) :: rest, cl diam x.2 < 0) →
          (runDiagnostics tmax diam s ((0, links0) :: rest)).CL_max = 0) := by
  have hrun : runDiagnostics tmax diam s ((0, links0) :: rest)
      = runDiagnostics tmax diam ⟨0, 0⟩ rest := by
    show runDiagnostics tmax diam (output_data tmax diam s 0 links0) rest = _
    rw [output_data_zero_step]
  obtain ⟨g1, g2⟩ := runDiagnostics_nonneg tmax diam ⟨0, 0⟩ rest (le_refl 0) (le_refl 0)
  refine ⟨by rw [hrun]; exact g1, by rw [hrun]; exact g2, fun hneg => ?_⟩
  rw [hrun]
  exact runDiagnostics_zero_of_neg tmax diam ⟨0, 0⟩ rest
    (fun y hy => hneg y (List.mem_cons_of_mem _ hy)) rfl

/-- Witness for C10: a trace whose every sample has lift coefficient
-25000/9 < 0 ends with a recorded maximum lift of exactly 0. -/
theorem C10_witness :
    (∀ x ∈ ((0, [BoundaryLink.mk 0 1 (0, 1)]) :: [(9, [BoundaryLink.mk 0 1 (0, 1)])]
        : List (Nat × List BoundaryLink)), cl 80 x.2 < 0)
      ∧ (runDiagnostics 10 80 ⟨5, 5⟩
          ((0, [BoundaryLink.mk 0 1 (0, 1)]) :: [(9, [BoundaryLink.mk 0 1 (0, 1)])])).CL_max
        = 0 := by
  have hcl : cl 80 [BoundaryLink.mk 0 1 (0, 1)] < 0 := by
    norm_num [cl, lift, boundary_force, sumAxis0, momentum_exchange_force,
      prescribed_vel, scale_factor]
  have hneg : ∀ x ∈ ((0, [BoundaryLink.mk 0 1 (0, 1)])
      :: [(9, [BoundaryLink.mk 0 1 (0, 1)])] : List (Nat × List BoundaryLink)),
      cl 80 x.2 < 0 := by
    intro x hx
    simp at hx
    rcases hx with rfl | rfl
    · exact hcl
    · exact hcl
  exact ⟨hneg, (C10_nonnegative_maxima 10 80 ⟨5, 5⟩ _ _).2.2 hneg⟩

end Cylinder2d
